import Mathlib

/-!
Verification of the Schedule_dock desktop widget (src/main.py): the timeline
builder and resolver (`DockBar.get_class_countdown_data`, `DockBar.parse_time`),
the secondary day-count display (`DockBar.draw_full_dock`), and the display
state machine (`DockBar.switch_mode`, `DockBar.update_geometry_by_state`,
`DockBar.on_anim_finished`, `DockBar.check_mouse_position`, `DockBar.force_show`).

Instants are modelled as microseconds since today's midnight (a `Nat`), which
mirrors the source's same-day `datetime` values including the sub-second
component that `timedelta.seconds` truncates away.
-/

namespace ScheduleDock

/-! Time-of-day parsing: (`DockBar.parse_time`)

`parse_time` tries `datetime.strptime` with `"%H:%M:%S"` and then `"%H:%M"`.
`_strptime` matches each of `%H`, `%M`, `%S` against 1-2 digit fields
(`%H` ≤ 23, `%M` ≤ 59, `%S` ≤ 61) with nothing left over; a seconds field of
60 or 61 then fails `datetime` construction, which the `except` swallows, and
the `"%H:%M"` fallback cannot match a two-colon string, so the net acceptance
for the seconds field is 0-59. -/

/-- Split a character list at every occurrence of `c` (the field structure of
the `_strptime` regexes `F:F:F` / `F:F`, whose fields are digit-only). -/
def splitOnChar (c : Char) : List Char → List (List Char)
  | [] => [[]]
  | x :: xs =>
    let r := splitOnChar c xs
    if x = c then [] :: r
    else
      match r with
      | [] => [[x]]
      | y :: ys => (x :: y) :: ys

def char_digit (c : Char) : Nat := c.toNat - 48

def digits_to_nat (l : List Char) : Nat :=
  l.foldl (fun acc c => acc * 10 + char_digit c) 0

/-- One `_strptime` numeric field: 1 or 2 decimal digits whose value lies in
`[lo, hi]`. -/
def parse_field (lo hi : Nat) (l : List Char) : Option Nat :=
  if (1 ≤ l.length ∧ l.length ≤ 2) ∧ l.all (fun c => c.isDigit) then
    let n := digits_to_nat l
    if lo ≤ n ∧ n ≤ hi then some n else none
  else none

/-- Model of `DockBar.parse_time`: `"%H:%M:%S"` first, then `"%H:%M"` (seconds 0);
`none` models the Python `None` returned when both formats fail. -/
def parse_time (s : String) : Option (Nat × Nat × Nat) :=
  match splitOnChar ':' s.data with
  | [h, m, sec] =>
    match parse_field 0 23 h, parse_field 0 59 m, parse_field 0 59 sec with
    | some hh, some mm, some ss => some (hh, mm, ss)
    | _, _, _ => none
  | [h, m] =>
    match parse_field 0 23 h, parse_field 0 59 m with
    | some hh, some mm => some (hh, mm, 0)
    | _, _ => none
  | _ => none

/-! Timeline building (the loop over `slots_def` in
`DockBar.get_class_countdown_data`) -/

structure Slot where
  name : String
  key : String
  dur : Nat
  has_break : Bool
deriving DecidableEq, Repr

structure Entry where
  start : Nat
  end_ : Nat
  label : String
  type : String
deriving DecidableEq, Repr

/-- Model of `times_config.get(k, "00:00")`: dictionary lookup with default `"00:00"`. -/
def lookup_marker (markers : List (String × String)) (k : String) : String :=
  match markers.find? (fun p => p.1 = k) with
  | some p => p.2
  | none => "00:00"

/-- Microseconds since midnight of a parsed `(h, m, s)` time-of-day. -/
def time_us : Nat × Nat × Nat → Nat
  | (h, m, s) => (h * 3600 + m * 60 + s) * 1000000

/-- The timeline construction loop: each slot whose marker parses contributes a
Class entry `[start, start + dur·60s)` and, when `has_break`, a Break entry of
8 minutes immediately after; a slot whose marker fails to parse is skipped. -/
def buildTimeline (markers : List (String × String)) : List Slot → List Entry
  | [] => []
  | slot :: rest =>
    match parse_time (lookup_marker markers slot.key) with
    | none => buildTimeline markers rest
    | some t =>
      let start := time_us t
      let e := start + slot.dur * 60000000
      ⟨start, e, slot.name, "class"⟩ ::
        (if slot.has_break then
           ⟨e, e + 480000000, "课间", "break"⟩ :: buildTimeline markers rest
         else buildTimeline markers rest)

/-- The static `slots_def` table of `DockBar.get_class_countdown_data`. -/
def slots_def : List Slot :=
  [⟨"早自习", "morning_self", 30, false⟩,
   ⟨"上午1", "am1", 40, true⟩,
   ⟨"上午2", "am2", 42, true⟩,
   ⟨"上午3", "am3", 42, true⟩,
   ⟨"上午4", "am4", 42, true⟩,
   ⟨"上午5", "am5", 40, false⟩,
   ⟨"下午1", "pm1", 40, true⟩,
   ⟨"下午2", "pm2", 42, true⟩,
   ⟨"下午3", "pm3", 42, true⟩,
   ⟨"下午4", "pm4", 42, false⟩,
   ⟨"晚答疑", "evening_qa", 60, false⟩]

/-! Resolution (the scan loop of `DockBar.get_class_countdown_data`) -/

/-- Python `02d` f-string formatting: decimal, zero-padded to at least two
digits. -/
def fmt2 (n : Nat) : String :=
  if n < 10 then ("0" ++ toString n) else toString n

/-- Value of `timedelta.seconds` for a non-negative delta of `us` microseconds: the
whole-second component after days are removed (truncation, no rounding). -/
def td_seconds (us : Nat) : Nat := us / 1000000 % 86400

/-- Value of `datetime.strftime("%H:%M")` for an instant `us` microseconds past
midnight. -/
def fmt_hhmm (us : Nat) : String :=
  fmt2 (us / 1000000 / 3600 % 24) ++ ":" ++ fmt2 (us / 1000000 / 60 % 60)

/-- The scan loop of `DockBar.get_class_countdown_data`: for each entry in
timeline order, first the in-interval test `start <= now < end`, then the
upcoming test `now < start` (with the 20-minute lookahead threshold); returns
`("已结束", "今日课程", "end")` when no entry matches. The result triple is
`(text, label, phase-tag)` with the phase tag a string exactly as in the
source (`"class"`, `"break"`, `"rest"`, `"end"`). -/
def resolve : List Entry → Nat → String × String × String
  | [], _ => ("已结束", "今日课程", "end")
  | e :: rest, now =>
    if e.start ≤ now ∧ now < e.end_ then
      let m := td_seconds (e.end_ - now) / 60
      let s := td_seconds (e.end_ - now) % 60
      (fmt2 m ++ ":" ++ fmt2 s,
       if e.type = "class" then ("距离下课") else ("距离上课"), e.type)
    else if now < e.start then
      if e.start - now < 1200000000 then
        let m := td_seconds (e.start - now) / 60
        let s := td_seconds (e.start - now) % 60
        (fmt2 m ++ ":" ++ fmt2 s, ("距离" ++ e.label), "break")
      else
        (fmt_hhmm e.start, e.label ++ " 开始", "rest")
    else resolve rest now

/-- Model of `DockBar.get_class_countdown_data` as a whole: build today's timeline from
the configured marker table and the static `slots_def`, then resolve `now`. -/
def get_class_countdown_data (times_config : List (String × String)) (now : Nat) :
    String × String × String :=
  resolve (buildTimeline times_config slots_def) now

/-- The view-mode decision of `DockBar.update_tick`:
`target_mode = "class_mode" if type_ == "class" else "normal"`. -/
def target_mode (ty : String) : String :=
  if ty = "class" then ("class_mode") else ("normal")

/-- The branch taken by `DockBar.paintEvent`: the full dock is drawn in
`"normal"` mode, the mini capsule in any other mode. -/
def paint_branch (mode : String) : String :=
  if mode = "normal" then ("full_dock") else ("mini_capsule")

/-! Target-date parsing and the day-count display (`DockBar.draw_full_dock`)

`datetime.strptime(t_date_str, "%Y-%m-%d")` matches `%Y` against exactly four
digits, `%m` against 1-2 digits in 1-12 and `%d` against 1-2 digits in 1-31;
`datetime` construction then rejects year 0 and a day beyond the month's
length, all failures being swallowed by the surrounding `except`. -/

def isLeap (y : Nat) : Bool :=
  y % 4 = 0 && (y % 100 ≠ 0 || y % 400 = 0)

def days_in_month (y m : Nat) : Nat :=
  if m = 2 then (if isLeap y then 29 else 28)
  else if m = 4 ∨ m = 6 ∨ m = 9 ∨ m = 11 then 30
  else 31

def parse_date (s : String) : Option (Nat × Nat × Nat) :=
  match splitOnChar '-' s.data with
  | [ys, ms, ds] =>
    if ys.length = 4 ∧ ys.all (fun c => c.isDigit) then
      match parse_field 1 12 ms, parse_field 1 31 ds with
      | some m, some d =>
        let y := digits_to_nat ys
        if 1 ≤ y ∧ d ≤ days_in_month y m then some (y, m, d) else none
      | _, _ => none
    else none
  | _ => none

/-- Model of `datetime._days_before_year`: days in the proleptic Gregorian calendar
before January 1 of year `y` (for `y ≥ 1`). -/
def days_before_year (y : Nat) : Nat :=
  (y - 1) * 365 + (y - 1) / 4 - (y - 1) / 100 + (y - 1) / 400

/-- Model of `datetime._days_before_month`. -/
def days_before_month (y m : Nat) : Nat :=
  (List.range (m - 1)).foldl (fun acc i => acc + days_in_month y (i + 1)) 0

/-- Model of `date.toordinal`: proleptic Gregorian ordinal (January 1 of year 1 is 1). -/
def toordinal (y m d : Nat) : Nat :=
  days_before_year y + days_before_month y m + d

/-- The day-count branch of `DockBar.draw_full_dock`: if the target-date string
is non-empty and parses, the displayed number is
`(datetime.strptime(t_date_str, "%Y-%m-%d") - now).days`, i.e. the floor of
(target's midnight − now) in days; otherwise the display is omitted (`none`).
`now` is split into its ordinal `now_ord` and the microseconds `now_us`
elapsed since that day's midnight. -/
def day_count_display (t_date_str : String) (now_ord now_us : Nat) : Option Int :=
  if t_date_str = "" then none
  else
    match parse_date t_date_str with
    | none => none
    | some (y, m, d) =>
      some (Int.fdiv ((toordinal y m d : Int) * 86400000000 -
        ((now_ord : Int) * 86400000000 + (now_us : Int))) 86400000000)

/-- The claim's reading of the day count, written from the spec's words
"`targetDate − today`, in days": the plain difference of the two dates'
ordinals, for comparison with `day_count_display`. -/
def spec_date_diff (y m d : Nat) (now_ord : Nat) : Int :=
  (toordinal y m d : Int) - (now_ord : Int)

/-! Display state machine (`DockBar` geometry, visibility and view mode)

The animation itself (`QPropertyAnimation`) is collapsed into two events:
starting a transition records the end rectangle in `anim_target` and sets
`animation_running`, and `on_anim_finished` moves `geometry` to that rectangle
and clears the flag — the interpolated frames in between carry no decision
logic. `_debounce` schedules `update_geometry_by_state` on a one-shot timer,
modelled by the `pending_timer` flag. -/

structure Rect where
  x : Int
  y : Int
  w : Int
  h : Int
deriving DecidableEq, Repr

/-- The constants fixed in `DockBar.init_ui`. -/
def full_height : Int := 110
def full_width : Int := 1300
def mini_height : Int := 60
def mini_width : Int := 220
def trigger_height : Int := 120

structure DockState where
  current_mode : String
  is_hidden : Bool
  animation_running : Bool
  geometry : Rect
  anim_target : Option Rect
  pending_timer : Bool
  screen_width : Int
deriving DecidableEq, Repr

/-- The end rectangle computed in `DockBar.update_geometry_by_state` from the
current mode and hidden flag (Python `//` is floor division). -/
def target_rect (screen_width : Int) (mode : String) (is_hidden : Bool) : Rect :=
  if mode = "normal" then
    ⟨Int.fdiv (screen_width - full_width) 2,
     if is_hidden then -full_height + 10 else 0, full_width, full_height⟩
  else
    ⟨screen_width - mini_width - 20,
     if is_hidden then -mini_height else 10, mini_width, mini_height⟩

/-- Model of `DockBar.update_geometry_by_state`: dropped entirely while an animation is
running; otherwise starts a 400 ms animation toward the computed rectangle,
setting the in-flight flag. -/
def update_geometry_by_state (s : DockState) : DockState :=
  if s.animation_running then s
  else
    { s with animation_running := true,
             anim_target := some (target_rect s.screen_width s.current_mode s.is_hidden) }

/-- Model of `DockBar.on_anim_finished`: the animation has driven `geometry` to its end
value; the flag is cleared. -/
def on_anim_finished (s : DockState) : DockState :=
  { s with animation_running := false,
           geometry := s.anim_target.getD s.geometry,
           anim_target := none }

/-- Model of `DockBar.switch_mode`. -/
def switch_mode (s : DockState) (target : String) : DockState :=
  if s.animation_running then s
  else update_geometry_by_state { s with current_mode := target }

/-- Model of `DockBar._debounce`: cancel any pending one-shot and schedule a new one. -/
def _debounce (s : DockState) : DockState :=
  { s with pending_timer := true }

/-- The `should_hide` computation inside `DockBar.check_mouse_position`. -/
def should_hide_of (mode : String) (screen_width mouse_x mouse_y : Int) : Bool :=
  if mouse_y < trigger_height then
    if mode = "normal" then true
    else if mode = "class_mode" then
      (if mouse_x > screen_width - 300 then true else false)
    else false
  else false

/-- Model of `DockBar.check_mouse_position` at one 10 Hz sample with cursor
`(mouse_x, mouse_y)`: returns immediately while an animation is running;
otherwise flips `is_hidden` when the computed `should_hide` disagrees with it
and debounces a geometry update. -/
def check_mouse_position (s : DockState) (mouse_x mouse_y : Int) : DockState :=
  if s.animation_running then s
  else
    if should_hide_of s.current_mode s.screen_width mouse_x mouse_y then
      (if s.is_hidden = false then _debounce { s with is_hidden := true } else s)
    else
      (if s.is_hidden = true then _debounce { s with is_hidden := false } else s)

/-- Model of `DockBar.force_show`: set `is_hidden = False`, then
`update_geometry_by_state` (the `raise_()` call is pure window stacking). -/
def force_show (s : DockState) : DockState :=
  update_geometry_by_state { s with is_hidden := false }

/-! Helper lemmas -/

/-- Unfolding lemma for one `buildTimeline` step. -/
theorem buildTimeline_cons (markers : List (String × String)) (slot : Slot)
    (rest : List Slot) :
    buildTimeline markers (slot :: rest) =
      match parse_time (lookup_marker markers slot.key) with
      | none => buildTimeline markers rest
      | some t =>
        let start := time_us t
        let e := start + slot.dur * 60000000
        ⟨start, e, slot.name, "class"⟩ ::
          (if slot.has_break then
             ⟨e, e + 480000000, "课间", "break"⟩ :: buildTimeline markers rest
           else buildTimeline markers rest) := rfl

/-- Entries that lie entirely in the past (both endpoints at or before `now`)
are passed over by the resolution scan. -/
theorem resolve_skip_of_past (pre rest : List Entry) (now : Nat)
    (h : ∀ x ∈ pre, x.start ≤ now ∧ x.end_ ≤ now) :
    resolve (pre ++ rest) now = resolve rest now := by
  induction pre with
  | nil => rfl
  | cons x xs ih =>
    have hx := h x (List.mem_cons_self x xs)
    have hxs : ∀ y ∈ xs, y.start ≤ now ∧ y.end_ ≤ now :=
      fun y hy => h y (List.mem_cons_of_mem x hy)
    have h1 : ¬(x.start ≤ now ∧ now < x.end_) := by omega
    have h2 : ¬(now < x.start) := by omega
    simp only [List.cons_append, resolve, if_neg h1, if_neg h2]
    exact ih hxs

/-- Every entry the builder emits has `start ≤ end` (durations are
non-negative minute counts). -/
theorem buildTimeline_start_le_end (markers : List (String × String)) :
    ∀ slots : List Slot, ∀ e ∈ buildTimeline markers slots, e.start ≤ e.end_ := by
  intro slots
  induction slots with
  | nil => intro e he; simp [buildTimeline] at he
  | cons slot rest ih =>
    intro e he
    rw [buildTimeline_cons] at he
    cases hp : parse_time (lookup_marker markers slot.key) with
    | none =>
      rw [hp] at he
      exact ih e he
    | some t =>
      rw [hp] at he
      simp only at he
      rcases List.mem_cons.mp he with rfl | he2
      · exact Nat.le_add_right _ _
      · cases hb : slot.has_break
        · rw [hb] at he2
          simp only [Bool.false_eq_true, if_false] at he2
          exact ih e he2
        · rw [hb] at he2
          simp only [if_true] at he2
          rcases List.mem_cons.mp he2 with rfl | he3
          · exact Nat.le_add_right _ _
          · exact ih e he3

/-! Claim theorems -/

/-- Claim C1, counterexample: with markers `{am1: "08:00:00"}` and the single
slot `("Period1", "am1", 40, no break)`, at `now = 08:10:00` (29400000000 us)
the code returns text `"30:00"` — `divmod(1800, 60) = (30, 0)` — not the
`"00:30"` the claim states. -/
theorem C1_counterexample :
    resolve (buildTimeline [("am1", "08:00:00")] [⟨"Period1", "am1", 40, false⟩])
        29400000000 = ("30:00", "距离下课", "class") ∧
    (resolve (buildTimeline [("am1", "08:00:00")] [⟨"Period1", "am1", 40, false⟩])
        29400000000).1 ≠ "00:30" := by
  constructor <;> decide

/-- Claim C1 as amended: with markers `{am1: "08:00:00"}` and the single slot
`("Period1", "am1", 40, no break)`, `resolve` at `now = 08:10:00` returns
exactly text `"30:00"` (the MM:SS of the 30 minutes remaining), label
`"距离下课"` ("time until class ends"), and the phase tag `"class"`
(InClass). -/
theorem C1_scenario_class_countdown :
    resolve (buildTimeline [("am1", "08:00:00")] [⟨"Period1", "am1", 40, false⟩])
        29400000000 = ("30:00", "距离下课", "class") := by
  decide

/-- Claim C2, counterexample: a perfectly ordinary monotonic timeline —
`P1 = [09:00, 09:42)`, `P2 = [09:45, 10:25)` — at `now = 09:30:00`
(34200000000 us). The first entry with `now < start` is `P2`, whose
`rem = 15 min` is under the 20-minute threshold, so the claim demands text
`"15:00"`, label `"距离P2"` and phase Upcoming; but `now` lies inside `P1`,
so the code returns the in-class result `("12:00", "距离下课", "class")`. The
claim's conclusion also misses that this branch would tag the result
`"break"`, the same tag used for InBreak, not a distinct Upcoming tag. -/
theorem C2_counterexample :
    (List.filter (fun e => decide (34200000000 < e.start))
        (buildTimeline [("k1", "09:00:00"), ("k2", "09:45:00")]
          [⟨"P1", "k1", 42, false⟩, ⟨"P2", "k2", 40, false⟩]) =
      [⟨35100000000, 37500000000, "P2", "class"⟩]) ∧
    35100000000 - 34200000000 < 1200000000 ∧
    resolve (buildTimeline [("k1", "09:00:00"), ("k2", "09:45:00")]
        [⟨"P1", "k1", 42, false⟩, ⟨"P2", "k2", 40, false⟩]) 34200000000 =
      ("12:00", "距离下课", "class") ∧
    (resolve (buildTimeline [("k1", "09:00:00"), ("k2", "09:45:00")]
        [⟨"P1", "k1", 42, false⟩, ⟨"P2", "k2", 40, false⟩]) 34200000000).2.1 ≠
      "距离P2" := by
  refine ⟨by decide, by decide, by decide, by decide⟩

/-- Claim C2 as amended: whenever every entry preceding the first entry with
`now < start` lies entirely in the past (so the scan actually reaches it) and
its `rem = start − now` is under the 20-minute threshold, `resolve` returns
text equal to the MM:SS rendering of `rem`, label `"距离" ++ label`
("time until <label>"), and the phase tag `"break"` — the code reuses the
InBreak tag here rather than emitting a distinct Upcoming tag. -/
theorem C2_upcoming_within_threshold (pre post : List Entry) (e : Entry) (now : Nat)
    (hpre : ∀ x ∈ pre, x.start ≤ now ∧ x.end_ ≤ now)
    (hlt : now < e.start) (hthr : e.start - now < 1200000000) :
    resolve (pre ++ e :: post) now =
      (fmt2 (td_seconds (e.start - now) / 60) ++ ":" ++
        fmt2 (td_seconds (e.start - now) % 60), "距离" ++ e.label, "break") := by
  rw [resolve_skip_of_past pre (e :: post) now hpre]
  have h1 : ¬(e.start ≤ now ∧ now < e.end_) := by omega
  simp only [resolve, if_neg h1, if_pos hlt, if_pos hthr]

/-- Witness for C2: the spec's own scenario — a single entry
`[08:00, 08:40)`, `now = 07:45:00`, `rem = 15 min` — yields
`("15:00", "距离Period1", "break")`. -/
theorem C2_witness :
    resolve ([] ++ (⟨28800000000, 31200000000, "Period1", "class"⟩ : Entry) :: [])
        27900000000 = ("15:00", "距离Period1", "break") := by
  have h := C2_upcoming_within_threshold [] []
    ⟨28800000000, 31200000000, "Period1", "class"⟩ 27900000000
    (by simp) (by decide) (by decide)
  rw [h]; decide

/-- Claim C3, counterexample: with the non-monotonic timeline
`A = [10:05, 10:45)`, `B = [09:00, 09:40)` (in that order) and
`now = 09:30:00`, entry `B` contains `now`, yet the code returns the
upcoming-far result for `A` — the scan checks both conditions entry by entry
in timeline order, so the upcoming branch can win even though some entry in
the timeline contains `now`. -/
theorem C3_counterexample :
    (∃ e ∈ buildTimeline [("ka", "10:05:00"), ("kb", "09:00:00")]
        [⟨"A", "ka", 40, false⟩, ⟨"B", "kb", 40, false⟩],
        e.start ≤ 34200000000 ∧ 34200000000 < e.end_) ∧
    resolve (buildTimeline [("ka", "10:05:00"), ("kb", "09:00:00")]
        [⟨"A", "ka", 40, false⟩, ⟨"B", "kb", 40, false⟩]) 34200000000 =
      ("10:05", "A 开始", "rest") := by
  constructor <;> decide

/-- Claim C3 as amended: `resolve` scans entries in timeline order and stops
at the first entry satisfying either condition; an entry containing `now` is
therefore returned exactly when every entry before it lies entirely in the
past, in which case the in-interval result for that entry is produced
(phase = the entry's own kind tag). The upcoming branch is *not* suppressed by
an in-interval entry appearing later in the timeline. -/
theorem C3_first_match_in_order (pre post : List Entry) (e : Entry) (now : Nat)
    (hpre : ∀ x ∈ pre, x.start ≤ now ∧ x.end_ ≤ now)
    (h1 : e.start ≤ now) (h2 : now < e.end_) :
    resolve (pre ++ e :: post) now =
      (fmt2 (td_seconds (e.end_ - now) / 60) ++ ":" ++
        fmt2 (td_seconds (e.end_ - now) % 60),
       if e.type = "class" then ("距离下课") else ("距离上课"), e.type) := by
  rw [resolve_skip_of_past pre (e :: post) now hpre]
  simp only [resolve, if_pos (And.intro h1 h2)]

/-- Witness for C3: a break entry `[09:42, 09:50)` preceded by an ended class
entry; at `now = 09:45:00` the in-interval result for the break entry is
returned. -/
theorem C3_witness :
    resolve ((⟨32400000000, 34920000000, "P1", "class"⟩ : Entry) ::
        (⟨34920000000, 35400000000, "课间", "break"⟩ : Entry) :: []) 35100000000 =
      ("05:00", "距离上课", "break") := by
  have h := C3_first_match_in_order [⟨32400000000, 34920000000, "P1", "class"⟩] []
    ⟨34920000000, 35400000000, "课间", "break"⟩ 35100000000
    (by decide) (by decide) (by decide)
  rw [List.cons_append, List.nil_append] at h
  rw [h]; decide

/-- Claim C4, counterexample: a marker key entirely absent from the marker map
does *not* cause the slot to be skipped — `times_config.get(k, "00:00")`
substitutes `"00:00"`, which parses, so the slot materialises as a Class entry
starting at midnight. -/
theorem C4_counterexample :
    buildTimeline [] [⟨"P1", "am1", 40, false⟩] =
      [⟨0, 2400000000, "P1", "class"⟩] ∧
    buildTimeline [] [⟨"P1", "am1", 40, false⟩] ≠ [] := by
  constructor <;> decide

/-- Claim C4 as amended: for every slot whose marker string — after the absent
key is defaulted to `"00:00"` — fails both accepted time formats,
`buildTimeline` emits no entry for that slot and the entries for the other
slots are exactly those produced had the bad slot not existed; an absent key,
by contrast, is defaulted to `"00:00"` and yields a midnight entry. -/
theorem C4_unparseable_slot_skipped (markers : List (String × String))
    (pre post : List Slot) (bad : Slot)
    (h : parse_time (lookup_marker markers bad.key) = none) :
    buildTimeline markers (pre ++ bad :: post) = buildTimeline markers (pre ++ post) := by
  induction pre with
  | nil =>
    rw [List.nil_append, List.nil_append, buildTimeline_cons, h]
  | cons s rest ih =>
    rw [List.cons_append, List.cons_append, buildTimeline_cons, buildTimeline_cons]
    cases hps : parse_time (lookup_marker markers s.key) with
    | none => exact ih
    | some t => simp only [ih]

/-- Witness for C4: the spec's `"25:99"` example (hour 25 > 23) sits between
two good slots; the resulting timeline is exactly the one without it. -/
theorem C4_witness :
    buildTimeline [("am1", "25:99"), ("am2", "08:52:00")]
        ([⟨"P0", "am2", 10, false⟩] ++ (⟨"P1", "am1", 40, false⟩ : Slot) ::
          [⟨"P2", "am2", 42, true⟩]) =
      buildTimeline [("am1", "25:99"), ("am2", "08:52:00")]
        ([⟨"P0", "am2", 10, false⟩] ++ [⟨"P2", "am2", 42, true⟩]) :=
  C4_unparseable_slot_skipped [("am1", "25:99"), ("am2", "08:52:00")]
    [⟨"P0", "am2", 10, false⟩] [⟨"P2", "am2", 42, true⟩]
    ⟨"P1", "am1", 40, false⟩ (by decide)

/-- Claim C5 (confirmed): whenever `now` is at or past every built entry's end
— including the empty timeline — `resolve` returns exactly
`("已结束", "今日课程", "end")` ("ended" / "today's schedule" / Ended): the
scan falls off the end of the list and degrades rather than raising. -/
theorem C5_ended_degrades (markers : List (String × String)) (slots : List Slot)
    (now : Nat) (h : ∀ e ∈ buildTimeline markers slots, e.end_ ≤ now) :
    resolve (buildTimeline markers slots) now = ("已结束", "今日课程", "end") := by
  have h2 : ∀ x ∈ buildTimeline markers slots, x.start ≤ now ∧ x.end_ ≤ now := by
    intro x hx
    exact ⟨Nat.le_trans (buildTimeline_start_le_end markers slots x hx) (h x hx), h x hx⟩
  have h3 := resolve_skip_of_past (buildTimeline markers slots) [] now h2
  rw [List.append_nil] at h3
  rw [h3]
  rfl

/-- Witness for C5: the spec's third scenario — single slot ending 08:40,
`now = 09:00:00` — returns the Ended triple. -/
theorem C5_witness :
    resolve (buildTimeline [("am1", "08:00:00")] [⟨"Period1", "am1", 40, false⟩])
        32400000000 = ("已结束", "今日课程", "end") :=
  C5_ended_degrades [("am1", "08:00:00")] [⟨"Period1", "am1", 40, false⟩]
    32400000000 (by decide)

/-- Claim C6, counterexample: invoking force-show while a transition is
mid-flight leaves the in-flight flag `true` (it is never cleared), leaves the
geometry where it was (no snap to the shown position), and only flips
`is_hidden`: `update_geometry_by_state` returns immediately when
`animation_running` is set. -/
theorem C6_counterexample :
    force_show ⟨"normal", true, true, ⟨5, 5, 5, 5⟩, none, false, 1920⟩ =
      ⟨"normal", false, true, ⟨5, 5, 5, 5⟩, none, false, 1920⟩ ∧
    (force_show ⟨"normal", true, true, ⟨5, 5, 5, 5⟩, none, false, 1920⟩).animation_running
      ≠ false ∧
    (force_show ⟨"normal", true, true, ⟨5, 5, 5, 5⟩, none, false, 1920⟩).geometry ≠
      target_rect 1920 ("normal") false := by
  refine ⟨rfl, by decide, by decide⟩

/-- Claim C6 as amended: force-show unconditionally sets the visibility target
to Shown (`is_hidden = false`); when no transition is in flight it starts a
400 ms *animated* transition toward the shown geometry for the current mode
(setting the in-flight flag), and when one is in flight it changes nothing
besides `is_hidden` — it neither clears the in-flight flag nor moves the
widget. -/
theorem C6_force_show_behavior (s : DockState) :
    (force_show s).is_hidden = false ∧
    (s.animation_running = true → force_show s = { s with is_hidden := false }) ∧
    (s.animation_running = false →
      force_show s =
        { s with is_hidden := false, animation_running := true,
                 anim_target := some (target_rect s.screen_width s.current_mode false) }) := by
  unfold force_show update_geometry_by_state
  cases ha : s.animation_running <;> simp [ha]

/-- Witness for C6: both branches instantiated — a mid-flight state only has
its `is_hidden` flipped, a settled state starts an animated transition to the
shown rectangle. -/
theorem C6_witness :
    force_show (⟨"normal", true, true, ⟨5, 5, 5, 5⟩, none, false, 1280⟩ : DockState) =
      { (⟨"normal", true, true, ⟨5, 5, 5, 5⟩, none, false, 1280⟩ : DockState) with
        is_hidden := false } ∧
    force_show (⟨"normal", true, false, ⟨5, 5, 5, 5⟩, none, false, 1280⟩ : DockState) =
      { (⟨"normal", true, false, ⟨5, 5, 5, 5⟩, none, false, 1280⟩ : DockState) with
        is_hidden := false, animation_running := true,
        anim_target := some (target_rect 1280 ("normal") false) } :=
  ⟨(C6_force_show_behavior _).2.1 rfl, (C6_force_show_behavior _).2.2 rfl⟩

/-- Claim C7, counterexample: with a visibility transition in flight
(`animation_running = true`), a mouse sample whose computed `should_hide` is
`true` does *not* update the stored target — `check_mouse_position` returns at
its first line and `is_hidden` stays `false`, contrary to the claim that the
target is updated from the sample. -/
theorem C7_counterexample :
    should_hide_of ("normal") 1920 100 50 = true ∧
    (check_mouse_position ⟨"normal", false, true, ⟨5, 5, 5, 5⟩, none, false, 1920⟩
        100 50).is_hidden = false ∧
    check_mouse_position ⟨"normal", false, true, ⟨5, 5, 5, 5⟩, none, false, 1920⟩ 100 50 =
      ⟨"normal", false, true, ⟨5, 5, 5, 5⟩, none, false, 1920⟩ := by
  refine ⟨rfl, rfl, rfl⟩

/-- Claim C7 as amended: while a visibility transition is in flight, a new
mouse sample is ignored entirely — `check_mouse_position` returns without
updating the stored target `is_hidden` (and hence also never starts a second
concurrent transition); samples only take effect again after the transition
settles. -/
theorem C7_inflight_sample_ignored (s : DockState) (mouse_x mouse_y : Int)
    (h : s.animation_running = true) :
    check_mouse_position s mouse_x mouse_y = s := by
  simp [check_mouse_position, h]

/-- Witness for C7: a concrete mid-flight state is returned untouched. -/
theorem C7_witness :
    check_mouse_position ⟨"class_mode", true, true, ⟨0, 0, 220, 60⟩, none, false, 1920⟩
        5 500 = ⟨"class_mode", true, true, ⟨0, 0, 220, 60⟩, none, false, 1920⟩ :=
  C7_inflight_sample_ignored _ 5 500 rfl

/-- Claim C8 (confirmed): the 1 Hz tick's view-mode target is the mini capsule
(`"class_mode"`, drawn by the mini-capsule branch of `paintEvent`) exactly for
the phase tag `"class"` (InClass), and the full layout (`"normal"`) for every
other phase the resolver can produce — `"break"` (InBreak / near-upcoming),
`"rest"` (far-upcoming) and `"end"` (Ended). -/
theorem C8_mode_polarity :
    target_mode ("class") = "class_mode" ∧ target_mode ("break") = "normal" ∧
    target_mode ("rest") = "normal" ∧ target_mode ("end") = "normal" ∧
    paint_branch ("class_mode") = "mini_capsule" ∧ paint_branch ("normal") = "full_dock" ∧
    ∀ markers slots now,
      (resolve (buildTimeline markers slots) now).2.2 = "class" ∨
        target_mode (resolve (buildTimeline markers slots) now).2.2 = "normal" := by
  refine ⟨rfl, by decide, by decide, by decide, rfl, rfl, ?_⟩
  intro markers slots now
  by_cases h : (resolve (buildTimeline markers slots) now).2.2 = "class"
  · exact Or.inl h
  · exact Or.inr (by simp [target_mode, h])

/-- Claim C9, counterexample: at 10:00 in the morning of 2026-06-06 with
target `"2026-06-07"`, the display shows 0, not the 1 whole day separating the
two dates — the code floors `(target's midnight − now)`, so the count is one
short whenever `now` is past midnight. -/
theorem C9_counterexample :
    day_count_display ("2026-06-07") (toordinal 2026 6 6) 36000000000 = some 0 ∧
    day_count_display ("2026-06-07") (toordinal 2026 6 6) 36000000000 ≠
      some (spec_date_diff 2026 6 7 (toordinal 2026 6 6)) := by
  constructor <;> decide

/-- Claim C9 as amended: for every target-date string that parses as
`YYYY-MM-DD`, the day-count display shows
`floor((target's midnight − now) / 1 day)` — the ordinal difference of the two
dates minus one whenever `now` is strictly past midnight; a malformed string
omits the display with no error raised. -/
theorem C9_day_count_floor :
    (∀ t y m d now_ord now_us, parse_date t = some (y, m, d) →
      now_us < 86400000000 →
      day_count_display t now_ord now_us =
        some (spec_date_diff y m d now_ord - (if now_us = 0 then 0 else 1))) ∧
    (∀ t now_ord now_us, parse_date t = none →
      day_count_display t now_ord now_us = none) := by
  constructor
  · intro t y m d now_ord now_us hp hus
    have ht : ¬ t = "" := by
      intro h
      rw [h, show parse_date ("") = none from rfl] at hp
      exact Option.noConfusion hp
    unfold day_count_display
    rw [if_neg ht, hp]
    show some (Int.fdiv ((toordinal y m d : Int) * 86400000000 -
        ((now_ord : Int) * 86400000000 + (now_us : Int))) 86400000000) =
      some (spec_date_diff y m d now_ord - if now_us = 0 then 0 else 1)
    congr 1
    rw [Int.fdiv_eq_ediv _ (by norm_num)]
    unfold spec_date_diff
    by_cases hu : now_us = 0
    · rw [hu, if_pos rfl]
      omega
    · rw [if_neg hu]
      omega
  · intro t now_ord now_us hp
    unfold day_count_display
    by_cases ht : t = "" <;> simp [ht, hp]

/-- Witness for C9: both branches instantiated — the parsed target
`"2026-06-07"` seen from mid-day 2026-06-06, and a malformed string. -/
theorem C9_witness :
    day_count_display ("2026-06-07") 739773 36000000000 = some 0 ∧
    day_count_display ("25:99 not a date") 739773 36000000000 = none := by
  constructor
  · have h := C9_day_count_floor.1 ("2026-06-07") 2026 6 7 739773 36000000000
      (by decide) (by decide)
    rw [h]; decide
  · exact C9_day_count_floor.2 ("25:99 not a date") 739773 36000000000 (by decide)

/-- Claim C10 (confirmed): one `animation_running` flag gates both axes —
while it is set, `switch_mode` returns before touching the view mode,
`update_geometry_by_state` starts no animation, and `check_mouse_position`
returns before reading the cursor, all leaving the state untouched; the flag
is cleared (only) when the running transition completes in
`on_anim_finished`. -/
theorem C10_single_inflight_flag (s : DockState) (target : String)
    (mouse_x mouse_y : Int) (h : s.animation_running = true) :
    switch_mode s target = s ∧ update_geometry_by_state s = s ∧
    check_mouse_position s mouse_x mouse_y = s ∧
    (on_anim_finished s).animation_running = false := by
  refine ⟨?_, ?_, ?_, rfl⟩ <;>
    simp [switch_mode, update_geometry_by_state, check_mouse_position, h]

/-- Witness for C10: a concrete mid-flight state is untouched by all three
operations, and finishing the animation clears the flag. -/
theorem C10_witness :
    switch_mode ⟨"normal", false, true, ⟨5, 5, 5, 5⟩, some ⟨310, 0, 1300, 110⟩, false, 1920⟩
        ("class_mode") =
      ⟨"normal", false, true, ⟨5, 5, 5, 5⟩, some ⟨310, 0, 1300, 110⟩, false, 1920⟩ ∧
    update_geometry_by_state
        ⟨"normal", false, true, ⟨5, 5, 5, 5⟩, some ⟨310, 0, 1300, 110⟩, false, 1920⟩ =
      ⟨"normal", false, true, ⟨5, 5, 5, 5⟩, some ⟨310, 0, 1300, 110⟩, false, 1920⟩ ∧
    check_mouse_position
        ⟨"normal", false, true, ⟨5, 5, 5, 5⟩, some ⟨310, 0, 1300, 110⟩, false, 1920⟩ 30 40 =
      ⟨"normal", false, true, ⟨5, 5, 5, 5⟩, some ⟨310, 0, 1300, 110⟩, false, 1920⟩ ∧
    (on_anim_finished
        ⟨"normal", false, true, ⟨5, 5, 5, 5⟩, some ⟨310, 0, 1300, 110⟩, false, 1920⟩
      ).animation_running = false :=
  C10_single_inflight_flag
    ⟨"normal", false, true, ⟨5, 5, 5, 5⟩, some ⟨310, 0, 1300, 110⟩, false, 1920⟩
    ("class_mode") 30 40 rfl

end ScheduleDock
